import Mathlib

/-!
Verification of the `log` package (github.com/Rapix-x/log): a shallow
embedding of the PII-field abstraction (field.go) and the logger layer
(logger.go, both revisions present in the repository documentation) and
of the package-level default logger (logging.go), together with theorems
settling the specified behavioral claims.

Modelling conventions:
- Go `uint8` values (PIIMode) are Nat; Go `int8` values (zapcore.Level)
  are Int.
- The process-wide mutable `MaskFunc` variable is passed explicitly as an
  `Option MaskFuncType` snapshot (a call reads the variable once per
  resolution; no claim concerns mid-call reassignment).
- Go nil pointers and nil function values are `Option.none`; a Go runtime
  panic from a nil dereference is modelled as an `Option.none` /
  fault-outcome result.
- The zap backend is out of scope: a `zap.Field` is modelled by the
  `ZapField` type (`zap.String` and `zap.Skip` are the only constructors
  the package uses), and emission produces an explicit record value
  instead of writing JSON.
-/

namespace Log

/-! SHA-256, translated from the behaviour of Go `crypto/sha256.Sum256`
together with `encoding/hex.EncodeToString`, which the package's `hash`
function composes. All arithmetic is on Nat reduced mod 2^32. -/

/-- Reduce a Nat to a 32-bit word. -/
def w32 (x : Nat) : Nat := x % 4294967296

/-- Rotate a 32-bit word right by n bits. -/
def rotr32 (n x : Nat) : Nat := w32 ((x >>> n) ||| (x <<< (32 - n)))

/-- SHA-256 big sigma 0. -/
def bigSigma0 (x : Nat) : Nat := rotr32 2 x ^^^ rotr32 13 x ^^^ rotr32 22 x

/-- SHA-256 big sigma 1. -/
def bigSigma1 (x : Nat) : Nat := rotr32 6 x ^^^ rotr32 11 x ^^^ rotr32 25 x

/-- SHA-256 small sigma 0. -/
def smallSigma0 (x : Nat) : Nat := rotr32 7 x ^^^ rotr32 18 x ^^^ (x >>> 3)

/-- SHA-256 small sigma 1. -/
def smallSigma1 (x : Nat) : Nat := rotr32 17 x ^^^ rotr32 19 x ^^^ (x >>> 10)

/-- SHA-256 choice function; the complement is taken inside 32 bits. -/
def chFun (x y z : Nat) : Nat := (x &&& y) ^^^ ((4294967295 - w32 x) &&& z)

/-- SHA-256 majority function. -/
def majFun (x y z : Nat) : Nat := (x &&& y) ^^^ (x &&& z) ^^^ (y &&& z)

/-- Round constants of SHA-256, written in decimal. -/
def K256 : List Nat :=
  [1116352408, 1899447441, 3049323471, 3921009573, 961987163,
   1508970993, 2453635748, 2870763221, 3624381080, 310598401,
   607225278, 1426881987, 1925078388, 2162078206, 2614888103,
   3248222580, 3835390401, 4022224774, 264347078, 604807628,
   770255983, 1249150122, 1555081692, 1996064986, 2554220882,
   2821834349, 2952996808, 3210313671, 3336571891, 3584528711,
   113926993, 338241895, 666307205, 773529912, 1294757372,
   1396182291, 1695183700, 1986661051, 2177026350, 2456956037,
   2730485921, 2820302411, 3259730800, 3345764771, 3516065817,
   3600352804, 4094571909, 275423344, 430227734, 506948616,
   659060556, 883997877, 958139571, 1322822218, 1537002063,
   1747873779, 1955562222, 2024104815, 2227730452, 2361852424,
   2428436474, 2756734187, 3204031479, 3329325298]

/-- Initial hash state of SHA-256, written in decimal. -/
def H256 : List Nat :=
  [1779033703, 3144134277, 1013904242, 2773480762,
   1359893119, 2600822924, 528734635, 1541459225]

/-- Encode a Nat as k bytes, big-endian. -/
def beBytes : Nat → Nat → List Nat
  | 0, _ => []
  | k + 1, n => beBytes k (n / 256) ++ [n % 256]

/-- UTF-8 encoding of a unicode code point. -/
def utf8EncodeCodepoint (c : Nat) : List Nat :=
  if c < 0x80 then [c]
  else if c < 0x800 then [0xC0 + c / 64, 0x80 + c % 64]
  else if c < 0x10000 then [0xE0 + c / 4096, 0x80 + (c / 64) % 64, 0x80 + c % 64]
  else [0xF0 + c / 262144, 0x80 + (c / 4096) % 64, 0x80 + (c / 64) % 64, 0x80 + c % 64]

/-- Bytes of a string under UTF-8, matching Go's []byte(s) conversion. -/
def strBytes (s : String) : List Nat :=
  (s.data.map (fun c => utf8EncodeCodepoint c.toNat)).flatten

/-- SHA-256 padding: append 0x80, zero bytes to 56 mod 64, then the
bit length as 8 big-endian bytes. -/
def padMessage (msg : List Nat) : List Nat :=
  let len := msg.length
  let zeros := (119 - len % 64) % 64
  msg ++ [0x80] ++ List.replicate zeros 0 ++ beBytes 8 (len * 8)

/-- Group a byte list into big-endian 32-bit words. -/
def toWords : List Nat → List Nat
  | b0 :: b1 :: b2 :: b3 :: rest => (((b0 * 256 + b1) * 256 + b2) * 256 + b3) :: toWords rest
  | _ => []

/-- Split a word list into chunks of 16; the first argument is fuel
bounding the number of chunks. -/
def chunk16 : Nat → List Nat → List (List Nat)
  | 0, _ => []
  | _, [] => []
  | fuel + 1, ws => ws.take 16 :: chunk16 fuel (ws.drop 16)

/-- Extend a 16-word block by n further schedule words. -/
def extendSchedule : Nat → List Nat → List Nat
  | 0, ws => ws
  | n + 1, ws =>
    let t := ws.length
    let wNew := w32 (smallSigma1 (ws.getD (t - 2) 0) + ws.getD (t - 7) 0 +
                     smallSigma0 (ws.getD (t - 15) 0) + ws.getD (t - 16) 0)
    extendSchedule n (ws ++ [wNew])

/-- One SHA-256 compression round on the 8-word working state. -/
def compressStep (st : List Nat) (kw : Nat × Nat) : List Nat :=
  match st with
  | [a, b, c, d, e, f, g, h] =>
    let t1 := w32 (h + bigSigma1 e + chFun e f g + kw.1 + kw.2)
    let t2 := w32 (bigSigma0 a + majFun a b c)
    [w32 (t1 + t2), a, b, c, w32 (d + t1), e, f, g]
  | other => other

/-- Compress one 16-word block into the hash state. -/
def compressBlock (H : List Nat) (block : List Nat) : List Nat :=
  let ws := extendSchedule 48 block
  let fin := (K256.zip ws).foldl compressStep H
  (H.zip fin).map (fun p => w32 (p.1 + p.2))

/-- SHA-256 digest of a byte list, as 32 bytes. -/
def sha256Bytes (msg : List Nat) : List Nat :=
  let padded := padMessage msg
  let blocks := chunk16 (padded.length) (toWords padded)
  ((blocks.foldl compressBlock H256).map (beBytes 4)).flatten

/-- Lowercase hexadecimal digit, as Go's encoding/hex uses. -/
def hexDigit (n : Nat) : Char :=
  if n < 10 then Char.ofNat (48 + n) else Char.ofNat (87 + n)

/-- Lowercase hex encoding of a byte list (encoding/hex.EncodeToString). -/
def hexEncodeBytes (bs : List Nat) : String :=
  String.mk ((bs.map (fun b => [hexDigit (b / 16), hexDigit (b % 16)])).flatten)

/-- Model of the package's `hash` function: lowercase hex of the SHA-256
digest of the string's bytes. -/
def hash (s : String) : String := hexEncodeBytes (sha256Bytes (strBytes s))

/-! The field abstraction (field.go). -/

/-- PIIMode is a Go uint8 enumeration; values are Nats, and values other
than the four defined constants are possible and hit the default branch
of the dispatch. -/
abbrev PIIMode := Nat

/-- PIIModeNone leaves PII fields as is. -/
def PIIModeNone : PIIMode := 0

/-- PIIModeHash hashes the value part of a PII field (SHA-256). -/
def PIIModeHash : PIIMode := 1

/-- PIIModeMask masks the value part via the process-wide mask function. -/
def PIIModeMask : PIIMode := 2

/-- PIIModeRemove omits PII fields completely. -/
def PIIModeRemove : PIIMode := 3

/-- ResolvedPIIField is the struct returned by mask and custom resolve
functions; the Go zero value has both strings empty. -/
structure ResolvedPIIField where
  Key : String := ""
  Value : String := ""

/-- ZapField models the backend `zap.Field` values this package builds:
`zap.String key value` and the no-op marker `zap.Skip()`, which the
backend encoder drops from the written record. -/
inductive ZapField where
  | string (key value : String)
  | skip

/-- Conversion of a resolved field to a backend field (zapField method). -/
def ResolvedPIIField.zapField (f : ResolvedPIIField) : ZapField :=
  ZapField.string f.Key f.Value

/-- Type of the process-wide MaskFunc variable; the variable itself is
passed around as `Option MaskFuncType`, none modelling a nil function. -/
abbrev MaskFuncType := String → String → ResolvedPIIField

/-- The standard PII field struct. -/
structure field where
  key : String
  value : String

/-- Resolution of a standard PII field: the mode-dispatch switch of
field.resolve, with the MaskFunc global passed explicitly. -/
def field.resolve (f : field) (maskFunc : Option MaskFuncType) (piiMode : PIIMode) : ZapField :=
  if piiMode = PIIModeNone then ZapField.string f.key f.value
  else if piiMode = PIIModeHash then ZapField.string f.key (hash f.value)
  else if piiMode = PIIModeMask then
    match maskFunc with
    | none => ZapField.skip
    | some mf => (mf f.key f.value).zapField
  else if piiMode = PIIModeRemove then ZapField.skip
  else ZapField.skip

/-- PII constructs a standard PII field; it always succeeds (the Go
function returns a fresh non-nil pointer storing key and value). -/
def PII (key value : String) : field :=
  { key := key, value := value }

/-- Signature of caller-supplied custom resolve functions. -/
abbrev CustomResolveFunc := PIIMode → String → String → ResolvedPIIField

/-- The custom PII field struct. -/
structure customPIIField where
  key : String
  value : String
  customResolveFunc : CustomResolveFunc

/-- CustomPII returns nil (none) when the key is empty, the value is
empty, or the resolve function is nil; otherwise it returns a field
storing all three verbatim. -/
def CustomPII (key value : String) (resolveFunc : Option CustomResolveFunc) :
    Option customPIIField :=
  if key = "" ∨ value = "" ∨ resolveFunc.isNone then none
  else
    match resolveFunc with
    | some f => some { key := key, value := value, customResolveFunc := f }
    | none => none

/-- Resolution of a custom PII field: unconditional delegation to the
stored custom resolve function. -/
def customPIIField.resolve (f : customPIIField) (piiMode : PIIMode) : ZapField :=
  (f.customResolveFunc piiMode f.key f.value).zapField

/-! The logger layer (logger.go; the repository documentation carries two
revisions of this file, which differ in how NewLogger builds the backend
and attaches the app/version fields). -/

/-- Level is Go's zapcore.Level, an int8. -/
abbrev Level := Int

/-- DebugLevel mirrors zapcore.DebugLevel. -/
def DebugLevel : Level := -1

/-- InfoLevel mirrors zapcore.InfoLevel, the zero value. -/
def InfoLevel : Level := 0

/-- WarnLevel mirrors zapcore.WarnLevel. -/
def WarnLevel : Level := 1

/-- ErrorLevel mirrors zapcore.ErrorLevel. -/
def ErrorLevel : Level := 2

/-- PanicLevel mirrors zapcore.PanicLevel. -/
def PanicLevel : Level := 4

/-- FatalLevel mirrors zapcore.FatalLevel. -/
def FatalLevel : Level := 5

/-- The six levels accepted by validation (the logLevels set). -/
def logLevels : List Level :=
  [DebugLevel, InfoLevel, WarnLevel, ErrorLevel, PanicLevel, FatalLevel]

/-- The four modes accepted by validation (the piiModes set). -/
def piiModes : List PIIMode :=
  [PIIModeNone, PIIModeHash, PIIModeMask, PIIModeRemove]

/-- Configuration for a logger; defaults are the Go zero values. -/
structure Configuration where
  ApplicationName : String := ""
  Version : String := ""
  MinimumLogLevel : Level := 0
  PIIMode : Nat := 0

/-- Validation of a configuration: some message on failure, none on
success; the minimum log level is checked before the PII mode, exactly
as in validateLoggerConf. -/
def validateLoggerConf (conf : Configuration) : Option String :=
  if conf.MinimumLogLevel ∈ logLevels then
    if conf.PIIMode ∈ piiModes then none
    else some "invalid PII mode in logger configuration"
  else some "invalid minimum log level in logger configuration"

/-- LogArg models one element of the variadic `...any` key/value sequence
of a structured logging call: plain strings and integers, backend fields,
a (non-nil) standard PII field pointer, and a custom PII field pointer
which may be the nil result of a failed CustomPII construction. -/
inductive LogArg where
  | str (s : String)
  | int (n : Int)
  | zapF (f : ZapField)
  | piiField (f : field)
  | customField (f : Option customPIIField)

/-- The field scan of resolvePIIFunctions: elements implementing the
PIIResolver interface (standard and custom PII fields, including a typed
nil custom field pointer) are replaced by the result of resolve(piiMode);
every other element is appended verbatim. Calling resolve on a nil
custom-field pointer dereferences nil in Go and panics; the panic is
modelled as the none result, aborting the whole scan. -/
def resolvePIIFunctions (maskFunc : Option MaskFuncType) (piiMode : PIIMode) :
    List LogArg → Option (List LogArg)
  | [] => some []
  | element :: rest =>
    match element with
    | LogArg.piiField f =>
      (resolvePIIFunctions maskFunc piiMode rest).map
        (fun out => LogArg.zapF (f.resolve maskFunc piiMode) :: out)
    | LogArg.customField (some f) =>
      (resolvePIIFunctions maskFunc piiMode rest).map
        (fun out => LogArg.zapF (f.resolve piiMode) :: out)
    | LogArg.customField none => none
    | other => (resolvePIIFunctions maskFunc piiMode rest).map (fun out => other :: out)

/-- Backend equivalence on forwarded sequences: the zap encoder drops
skip markers, so two sequences are backend-equivalent when they agree
after erasing standalone skip fields. -/
def eraseSkips (args : List LogArg) : List LogArg :=
  args.filter (fun a =>
    match a with
    | LogArg.zapF ZapField.skip => false
    | _ => true)

/-- The Logger struct: the configured PII mode plus the observable state
of the wrapped backend writer (fields attached at construction and
fields accumulated through With). -/
structure Logger where
  piiMode : PIIMode
  initialFields : List (String × String)
  attached : List LogArg

/-- NewLogger as in the zap.Config-based revision (README lines 436 to
465): validate, then attach "app" and "version" as initial fields only
when non-empty. The backend Build step is assumed to succeed. -/
def NewLogger (conf : Configuration) : Except String Logger :=
  match validateLoggerConf conf with
  | some err =>
    Except.error ("received an error while validating the logger configuration: " ++ err)
  | none =>
    let appFields := if conf.ApplicationName ≠ "" then [("app", conf.ApplicationName)] else []
    let versionFields := if conf.Version ≠ "" then [("version", conf.Version)] else []
    Except.ok { piiMode := conf.PIIMode, initialFields := appFields ++ versionFields, attached := [] }

/-- NewLogger as in the tee-based revision (README lines 741 to 782):
validate, then attach zap.String("app", name) and zap.String("version",
version) unconditionally, empty or not. -/
def NewLoggerTee (conf : Configuration) : Except String Logger :=
  match validateLoggerConf conf with
  | some err =>
    Except.error ("received an error while validating the logger configuration: " ++ err)
  | none =>
    Except.ok { piiMode := conf.PIIMode,
                initialFields := [("app", conf.ApplicationName), ("version", conf.Version)],
                attached := [] }

/-- handleUninitialized: on a nil receiver it builds an emergency zap
production logger and panics with this message; on a non-nil receiver it
does nothing. -/
def handleUninitialized : Option Logger → Option String
  | none => some "logger has not been initialized - panicking"
  | some _ => none

/-- Outcome of one structured emission call. A record carries the level,
message, construction-time fields, fields pre-attached via With, and the
resolved per-call sequence forwarded to the backend. emergencyAbort is
the handleUninitialized panic through the emergency fallback logger;
nilDereferenceFault is a low-level nil-pointer panic raised while
resolving a nil custom PII field. -/
inductive EmitResult where
  | record (lvl : Level) (msg : String) (initialFields : List (String × String))
      (preAttached : List LogArg) (fields : List LogArg)
  | emergencyAbort (panicMsg : String)
  | nilDereferenceFault

/-- Shared body of the structured emission methods (Debugw, Infow, Warnw,
Errorw, Fatalw): run handleUninitialized, then forward the resolved
key/value sequence to the backend write for the given level. -/
def emitw (maskFunc : Option MaskFuncType) (lvl : Level) (l : Option Logger)
    (msg : String) (keyValuePairs : List LogArg) : EmitResult :=
  match l with
  | none => EmitResult.emergencyAbort "logger has not been initialized - panicking"
  | some lg =>
    match resolvePIIFunctions maskFunc lg.piiMode keyValuePairs with
    | none => EmitResult.nilDereferenceFault
    | some out => EmitResult.record lvl msg lg.initialFields lg.attached out

/-- Debugw method of Logger. -/
def Logger.Debugw (maskFunc : Option MaskFuncType) (l : Option Logger) (msg : String)
    (keyValuePairs : List LogArg) : EmitResult :=
  emitw maskFunc DebugLevel l msg keyValuePairs

/-- Infow method of Logger. -/
def Logger.Infow (maskFunc : Option MaskFuncType) (l : Option Logger) (msg : String)
    (keyValuePairs : List LogArg) : EmitResult :=
  emitw maskFunc InfoLevel l msg keyValuePairs

/-- Warnw method of Logger. -/
def Logger.Warnw (maskFunc : Option MaskFuncType) (l : Option Logger) (msg : String)
    (keyValuePairs : List LogArg) : EmitResult :=
  emitw maskFunc WarnLevel l msg keyValuePairs

/-- Errorw method of Logger. -/
def Logger.Errorw (maskFunc : Option MaskFuncType) (l : Option Logger) (msg : String)
    (keyValuePairs : List LogArg) : EmitResult :=
  emitw maskFunc ErrorLevel l msg keyValuePairs

/-- Fatalw method of Logger (the backend additionally exits the process
after writing, a side effect outside this model). -/
def Logger.Fatalw (maskFunc : Option MaskFuncType) (l : Option Logger) (msg : String)
    (keyValuePairs : List LogArg) : EmitResult :=
  emitw maskFunc FatalLevel l msg keyValuePairs

/-- Outcome of Sync: the backend flush result, or the uninitialized
panic. -/
inductive SyncResult where
  | synced
  | emergencyAbort (panicMsg : String)

/-- Sync method of Logger: handleUninitialized, then backend sync. -/
def Logger.Sync (l : Option Logger) : SyncResult :=
  match l with
  | none => SyncResult.emergencyAbort "logger has not been initialized - panicking"
  | some _ => SyncResult.synced

/-- Outcome of With: a derived logger, the uninitialized panic, or a
nil-dereference fault from resolving a nil custom field. -/
inductive WithResult where
  | ok (l : Logger)
  | emergencyAbort (panicMsg : String)
  | nilDereferenceFault

/-- With method of Logger: handleUninitialized, then a new Logger whose
backend writer has the mode-resolved fields appended and whose PII mode
is copied from the receiver. -/
def Logger.With (maskFunc : Option MaskFuncType) (l : Option Logger)
    (keyValuePairs : List LogArg) : WithResult :=
  match l with
  | none => WithResult.emergencyAbort "logger has not been initialized - panicking"
  | some lg =>
    match resolvePIIFunctions maskFunc lg.piiMode keyValuePairs with
    | none => WithResult.nilDereferenceFault
    | some out => WithResult.ok { lg with attached := lg.attached ++ out }

/-! The package-level interface (logging.go). -/

/-- The package default logger: MustNewLogger(Configuration{
MinimumLogLevel: DebugLevel}); all other configuration fields are Go
zero values, so the PII mode is 0. MustNewLogger panics on a validation
error; validation provably succeeds here, so the error branch below is
dead. -/
def logger : Logger :=
  match NewLogger { MinimumLogLevel := DebugLevel } with
  | Except.ok l => l
  | Except.error _ => { piiMode := 0, initialFields := [], attached := [] }

/-- Package-level Debugw, forwarding to the default logger. -/
def Debugw (maskFunc : Option MaskFuncType) (msg : String)
    (keyValuePairs : List LogArg) : EmitResult :=
  Logger.Debugw maskFunc (some logger) msg keyValuePairs

/-- Package-level Infow, forwarding to the default logger. -/
def Infow (maskFunc : Option MaskFuncType) (msg : String)
    (keyValuePairs : List LogArg) : EmitResult :=
  Logger.Infow maskFunc (some logger) msg keyValuePairs

/-- Package-level Warnw, forwarding to the default logger. -/
def Warnw (maskFunc : Option MaskFuncType) (msg : String)
    (keyValuePairs : List LogArg) : EmitResult :=
  Logger.Warnw maskFunc (some logger) msg keyValuePairs

/-- Package-level Errorw, forwarding to the default logger. -/
def Errorw (maskFunc : Option MaskFuncType) (msg : String)
    (keyValuePairs : List LogArg) : EmitResult :=
  Logger.Errorw maskFunc (some logger) msg keyValuePairs

/-- Package-level Fatalw, forwarding to the default logger. -/
def Fatalw (maskFunc : Option MaskFuncType) (msg : String)
    (keyValuePairs : List LogArg) : EmitResult :=
  Logger.Fatalw maskFunc (some logger) msg keyValuePairs

/-! Theorems settling the claims. -/

/-- C1: resolution of a standard PII field created by PII(key, value)
follows the mode-dispatch table: mode none returns the key/value pair
unchanged; mode hash returns the key unchanged with the value replaced by
the lowercase hexadecimal SHA-256 digest of the value's bytes,
independent of the key; mode mask returns exactly the installed mask
function's result on (key, value) and yields omission when none is
installed; mode remove yields omission; and any mode value outside the
four defined modes yields omission. -/
theorem C1_standard_field_mode_dispatch
    (maskFunc : Option MaskFuncType) (key value : String) (piiMode : PIIMode) :
    ((PII key value).resolve maskFunc PIIModeNone = ZapField.string key value) ∧
    ((PII key value).resolve maskFunc PIIModeHash = ZapField.string key (hash value)) ∧
    ((PII key value).resolve none PIIModeMask = ZapField.skip) ∧
    (∀ mf : MaskFuncType,
      (PII key value).resolve (some mf) PIIModeMask = (mf key value).zapField) ∧
    ((PII key value).resolve maskFunc PIIModeRemove = ZapField.skip) ∧
    (piiMode ∉ piiModes → (PII key value).resolve maskFunc piiMode = ZapField.skip) := by
  refine ⟨rfl, rfl, rfl, fun mf => rfl, rfl, fun h => ?_⟩
  simp only [piiModes, PIIModeNone, PIIModeHash, PIIModeMask, PIIModeRemove,
    List.mem_cons, List.not_mem_nil, or_false, not_or] at h
  obtain ⟨h0, h1, h2, h3⟩ := h
  simp [PII, field.resolve, PIIModeNone, PIIModeHash, PIIModeMask, PIIModeRemove,
    h0, h1, h2, h3]

/-- C1 witness: the dispatch evaluated at concrete inputs, with the hash
branch producing the digest documented in the repository README and an
out-of-range mode value yielding omission. -/
theorem C1_witness :
    (PII "username" "abc@example.com").resolve none PIIModeHash =
      ZapField.string "username"
        "9eceb13483d7f187ec014fd6d4854d1420cfc634328af85f51d0323ba8622e21" ∧
    (PII "username" "abc@example.com").resolve none 7 = ZapField.skip := by
  have h := C1_standard_field_mode_dispatch none "username" "abc@example.com" 7
  refine ⟨?_, h.2.2.2.2.2 (by decide)⟩
  have hh : hash "abc@example.com" =
      "9eceb13483d7f187ec014fd6d4854d1420cfc634328af85f51d0323ba8622e21" := by decide
  rw [h.2.1, hh]

/-- C3: CustomPII(key, value, resolveFn) returns the absent value (and
never raises) exactly when the key is empty, the value is empty, or the
resolve function is nil; otherwise it returns a field storing key, value,
and the resolve function verbatim. -/
theorem C3_CustomPII_silent_drop (key value : String)
    (resolveFunc : Option CustomResolveFunc) :
    (CustomPII key value resolveFunc = none ↔
      key = "" ∨ value = "" ∨ resolveFunc = none) ∧
    (∀ f, resolveFunc = some f → key ≠ "" → value ≠ "" →
      CustomPII key value resolveFunc =
        some { key := key, value := value, customResolveFunc := f }) := by
  constructor
  · cases resolveFunc with
    | none => simp [CustomPII]
    | some f =>
      by_cases hk : key = "" <;> by_cases hv : value = "" <;> simp [CustomPII, hk, hv]
  · rintro f rfl hk hv
    simp [CustomPII, hk, hv]

/-- C3 witness: each of the three degenerate constructions yields the
absent value, and a well-formed construction stores its inputs. -/
theorem C3_witness :
    CustomPII "" "x" (some (fun _ k v => { Key := k, Value := v })) = none ∧
    CustomPII "x" "" (some (fun _ k v => { Key := k, Value := v })) = none ∧
    CustomPII "x" "y" (none : Option CustomResolveFunc) = none ∧
    CustomPII "x" "y" (some (fun _ k v => { Key := k, Value := v })) =
      some { key := "x", value := "y",
             customResolveFunc := fun _ k v => { Key := k, Value := v } } := by
  refine ⟨(C3_CustomPII_silent_drop "" "x" _).1.mpr (Or.inl rfl),
          (C3_CustomPII_silent_drop "x" "" _).1.mpr (Or.inr (Or.inl rfl)),
          (C3_CustomPII_silent_drop "x" "y" _).1.mpr (Or.inr (Or.inr rfl)),
          (C3_CustomPII_silent_drop "x" "y" _).2 _ rfl (by decide) (by decide)⟩

/-- C5: a custom PII field's resolve delegates directly to the stored
resolve function with (mode, key, value) and returns its result converted
to a backend field, for every mode value including ones outside the four
defined modes; it never applies the standard field's mode-dispatch table
(with an identity resolver the raw pair survives an out-of-range mode
where the standard dispatch omits it). -/
theorem C5_custom_resolve_delegates (piiMode : PIIMode) (f : customPIIField)
    (maskFunc : Option MaskFuncType) :
    (f.resolve piiMode = (f.customResolveFunc piiMode f.key f.value).zapField) ∧
    (∀ rest, resolvePIIFunctions maskFunc piiMode (LogArg.customField (some f) :: rest) =
      (resolvePIIFunctions maskFunc piiMode rest).map
        (fun out => LogArg.zapF ((f.customResolveFunc piiMode f.key f.value).zapField) :: out)) ∧
    (∀ k v : String, piiMode ∉ piiModes →
      (customPIIField.mk k v (fun _ kk vv => { Key := kk, Value := vv })).resolve piiMode =
        ZapField.string k v ∧
      (field.mk k v).resolve maskFunc piiMode = ZapField.skip) := by
  refine ⟨rfl, fun rest => rfl, fun k v h => ⟨rfl, ?_⟩⟩
  simp only [piiModes, PIIModeNone, PIIModeHash, PIIModeMask, PIIModeRemove,
    List.mem_cons, List.not_mem_nil, or_false, not_or] at h
  obtain ⟨h0, h1, h2, h3⟩ := h
  simp [field.resolve, PIIModeNone, PIIModeHash, PIIModeMask, PIIModeRemove,
    h0, h1, h2, h3]

/-- C5 witness: at the out-of-range mode 7 an identity-resolver custom
field keeps the raw pair while the standard dispatch omits it. -/
theorem C5_witness :
    (customPIIField.mk "email" "a@b.com" (fun _ kk vv => { Key := kk, Value := vv })).resolve 7 =
      ZapField.string "email" "a@b.com" ∧
    (field.mk "email" "a@b.com").resolve none 7 = ZapField.skip := by
  exact (C5_custom_resolve_delegates 7
    (customPIIField.mk "email" "a@b.com" (fun _ kk vv => { Key := kk, Value := vv }))
    none).2.2 "email" "a@b.com" (by decide)

/-- C2 counterexample: under mode remove, the mixed argument list
["user", StandardPII("email","a@b.com"), "count", 3] is forwarded as
["user", skip, "count", 3]: the resolved PII element is forwarded as the
backend skip marker rather than removed from the sequence, and the plain
"user" element passes through verbatim, so even after the backend drops
the skip marker the forwarded sequence is not equivalent to
["count", 3]. -/
theorem C2_cex_mixed_list_not_count3 :
    resolvePIIFunctions none PIIModeRemove
        [LogArg.str "user", LogArg.piiField (PII "email" "a@b.com"),
         LogArg.str "count", LogArg.int 3] =
      some [LogArg.str "user", LogArg.zapF ZapField.skip,
            LogArg.str "count", LogArg.int 3] ∧
    eraseSkips [LogArg.str "user", LogArg.zapF ZapField.skip,
                LogArg.str "count", LogArg.int 3] ≠
      [LogArg.str "count", LogArg.int 3] := by
  refine ⟨rfl, ?_⟩
  have e : eraseSkips [LogArg.str "user", LogArg.zapF ZapField.skip,
      LogArg.str "count", LogArg.int 3] =
      [LogArg.str "user", LogArg.str "count", LogArg.int 3] := rfl
  rw [e]
  intro h
  injection h with h1 _
  injection h1 with h2
  exact absurd h2 (by decide)

/-- C2 amended: every structured emission inspects each element of the
key/value sequence: a protocol-conforming element is replaced in its
position by resolve(currentMode), an omit result is forwarded as the
backend's skip marker (which the backend encoder drops from the written
record rather than emitting a malformed entry), and all other elements
pass through verbatim in their original position; emitting the PII field
standalone, as [StandardPII("email","a@b.com"), "count", 3] under mode
remove, forwards [skip, "count", 3], which is equivalent to
["count", 3] once the skip marker is dropped. -/
theorem C2_amended_elementwise_resolution :
    (∀ (maskFunc : Option MaskFuncType) (piiMode : PIIMode) (s : String) (rest : List LogArg),
      resolvePIIFunctions maskFunc piiMode (LogArg.str s :: rest) =
        (resolvePIIFunctions maskFunc piiMode rest).map (fun out => LogArg.str s :: out)) ∧
    (∀ (maskFunc : Option MaskFuncType) (piiMode : PIIMode) (n : Int) (rest : List LogArg),
      resolvePIIFunctions maskFunc piiMode (LogArg.int n :: rest) =
        (resolvePIIFunctions maskFunc piiMode rest).map (fun out => LogArg.int n :: out)) ∧
    (∀ (maskFunc : Option MaskFuncType) (piiMode : PIIMode) (f : field) (rest : List LogArg),
      resolvePIIFunctions maskFunc piiMode (LogArg.piiField f :: rest) =
        (resolvePIIFunctions maskFunc piiMode rest).map
          (fun out => LogArg.zapF (f.resolve maskFunc piiMode) :: out)) ∧
    (∀ (maskFunc : Option MaskFuncType) (f : field) (rest : List LogArg),
      resolvePIIFunctions maskFunc PIIModeRemove (LogArg.piiField f :: rest) =
        (resolvePIIFunctions maskFunc PIIModeRemove rest).map
          (fun out => LogArg.zapF ZapField.skip :: out)) ∧
    (∀ (maskFunc : Option MaskFuncType) (lvl : Level) (msg : String)
        (initialFields : List (String × String)) (attached : List LogArg),
      emitw maskFunc lvl
          (some { piiMode := PIIModeRemove, initialFields := initialFields,
                  attached := attached })
          msg [LogArg.piiField (PII "email" "a@b.com"), LogArg.str "count", LogArg.int 3] =
        EmitResult.record lvl msg initialFields attached
          [LogArg.zapF ZapField.skip, LogArg.str "count", LogArg.int 3]) ∧
    (eraseSkips [LogArg.zapF ZapField.skip, LogArg.str "count", LogArg.int 3] =
      [LogArg.str "count", LogArg.int 3]) := by
  exact ⟨fun _ _ _ _ => rfl, fun _ _ _ _ => rfl, fun _ _ _ _ => rfl, fun _ _ _ => rfl,
         fun _ _ _ _ _ => rfl, rfl⟩

/-- C2 witness: the elementwise scan evaluated on the standalone example
list under mode remove. -/
theorem C2_witness :
    resolvePIIFunctions none PIIModeRemove
        [LogArg.piiField (PII "email" "a@b.com"), LogArg.str "count", LogArg.int 3] =
      some [LogArg.zapF ZapField.skip, LogArg.str "count", LogArg.int 3] := by
  have h := C2_amended_elementwise_resolution
  rw [h.2.2.2.1 none (PII "email" "a@b.com") [LogArg.str "count", LogArg.int 3],
      h.1 none PIIModeRemove "count" [LogArg.int 3],
      h.2.1 none PIIModeRemove 3 []]
  rfl

/-- C4 counterexample: a structured emission whose key/value sequence
contains the nil result of a failed CustomPII construction does not
complete: the field scan treats the typed-nil pointer as implementing the
resolution protocol and calls resolve on it, which dereferences the nil
pointer and panics instead of dropping the absent entry. -/
theorem C4_cex_nil_field_faults :
    Logger.Infow none (some logger) "m" [LogArg.customField (CustomPII "" "x" none)] =
      EmitResult.nilDereferenceFault := rfl

/-- C4 amended: the field-scan layer does not defensively drop absent
entries; the scan, and with it every structured emission, faults with a
nil dereference exactly when the sequence contains a nil custom PII
field, so callers must check CustomPII results for absence themselves. -/
theorem C4_amended_nil_field_scan_fault
    (maskFunc : Option MaskFuncType) (piiMode : PIIMode) (args : List LogArg) :
    (resolvePIIFunctions maskFunc piiMode args = none ↔ LogArg.customField none ∈ args) ∧
    (∀ (lvl : Level) (msg : String) (lg : Logger), lg.piiMode = piiMode →
      (emitw maskFunc lvl (some lg) msg args = EmitResult.nilDereferenceFault ↔
        LogArg.customField none ∈ args)) := by
  have h1 : resolvePIIFunctions maskFunc piiMode args = none ↔
      LogArg.customField none ∈ args := by
    induction args with
    | nil => simp [resolvePIIFunctions]
    | cons a rest ih =>
      cases a with
      | str s => simpa [resolvePIIFunctions, Option.map_eq_none'] using ih
      | int n => simpa [resolvePIIFunctions, Option.map_eq_none'] using ih
      | zapF z => simpa [resolvePIIFunctions, Option.map_eq_none'] using ih
      | piiField f => simpa [resolvePIIFunctions, Option.map_eq_none'] using ih
      | customField f =>
        cases f with
        | none => simp [resolvePIIFunctions]
        | some g => simpa [resolvePIIFunctions, Option.map_eq_none'] using ih
  refine ⟨h1, ?_⟩
  intro lvl msg lg hlg
  subst hlg
  cases hr : resolvePIIFunctions maskFunc lg.piiMode args with
  | none =>
    simp only [emitw, hr]
    simpa using h1.mp hr
  | some out =>
    simp only [emitw, hr]
    constructor
    · intro h
      exact absurd h (by simp)
    · intro hm
      rw [h1.mpr hm] at hr
      exact Option.noConfusion hr

/-- C4 witness: the scan on a singleton nil custom field faults, and so
does the emission built on it. -/
theorem C4_witness :
    resolvePIIFunctions none PIIModeNone [LogArg.customField none] = none ∧
    emitw none InfoLevel
        (some { piiMode := PIIModeNone, initialFields := [], attached := [] })
        "m" [LogArg.customField none] = EmitResult.nilDereferenceFault := by
  have h := C4_amended_nil_field_scan_fault none PIIModeNone [LogArg.customField none]
  exact ⟨h.1.mpr (by simp), (h.2 InfoLevel "m"
    { piiMode := PIIModeNone, initialFields := [], attached := [] } rfl).mpr (by simp)⟩

/-- C6: NewLogger returns an explicit error, and no logger, when the
configured minimum log level is not one of the six defined levels or the
PII mode is not one of the four defined modes, with the error text naming
the invalid input; with both valid it succeeds and the logger carries the
configured PII mode. -/
theorem C6_NewLogger_validation (conf : Configuration) :
    (conf.MinimumLogLevel ∉ logLevels →
      NewLogger conf = Except.error
        ("received an error while validating the logger configuration: " ++
         "invalid minimum log level in logger configuration")) ∧
    (conf.MinimumLogLevel ∈ logLevels → conf.PIIMode ∉ piiModes →
      NewLogger conf = Except.error
        ("received an error while validating the logger configuration: " ++
         "invalid PII mode in logger configuration")) ∧
    (conf.MinimumLogLevel ∈ logLevels → conf.PIIMode ∈ piiModes →
      ∃ l : Logger, NewLogger conf = Except.ok l ∧ l.piiMode = conf.PIIMode) := by
  refine ⟨fun h1 => ?_, fun h1 h2 => ?_, fun h1 h2 => ?_⟩
  · simp [NewLogger, validateLoggerConf, h1]
  · simp [NewLogger, validateLoggerConf, h1, h2]
  · simp only [NewLogger, validateLoggerConf, if_pos h1, if_pos h2]
    exact ⟨_, rfl, rfl⟩

/-- C6 witness: level 3 (an undefined level between error and panic)
fails validation, mode 4 fails validation, and a fully valid
configuration constructs a logger with its mode. -/
theorem C6_witness :
    NewLogger { MinimumLogLevel := 3 } = Except.error
      ("received an error while validating the logger configuration: " ++
       "invalid minimum log level in logger configuration") ∧
    NewLogger { MinimumLogLevel := InfoLevel, PIIMode := 4 } = Except.error
      ("received an error while validating the logger configuration: " ++
       "invalid PII mode in logger configuration") ∧
    ∃ l : Logger,
      NewLogger { MinimumLogLevel := WarnLevel, PIIMode := 3 } = Except.ok l ∧
        l.piiMode = 3 := by
  exact ⟨(C6_NewLogger_validation { MinimumLogLevel := 3 }).1 (by decide),
         (C6_NewLogger_validation { MinimumLogLevel := InfoLevel, PIIMode := 4 }).2.1
           (by decide) (by decide),
         (C6_NewLogger_validation { MinimumLogLevel := WarnLevel, PIIMode := 3 }).2.2
           (by decide) (by decide)⟩

/-- C7: evaluation of both NewLogger revisions at the default (accepted)
configuration, whose application name and version are empty. The
zap.Config-based revision attaches no initial fields, as the claim and
the Configuration documentation state; the tee-based revision attaches
"app" and "version" fields with empty string values to every record,
contradicting both. -/
theorem C7_empty_name_version_fields :
    NewLogger {} = Except.ok { piiMode := 0, initialFields := [], attached := [] } ∧
    NewLoggerTee {} = Except.ok
      { piiMode := 0, initialFields := [("app", ""), ("version", "")], attached := [] } := by
  exact ⟨rfl, rfl⟩

/-- C8: With on a constructed logger yields a new logger with the same
PII mode whose backend writer has the mode-resolved fields appended, so
every subsequent record it emits carries those fields pre-attached, while
records emitted by the original logger are unaffected by the derivation;
With is the only operation deriving a logger and it copies the mode
unchanged. -/
theorem C8_With_derives_logger
    (maskFunc : Option MaskFuncType) (lg : Logger) (keyValuePairs out : List LogArg)
    (h : resolvePIIFunctions maskFunc lg.piiMode keyValuePairs = some out) :
    Logger.With maskFunc (some lg) keyValuePairs =
      WithResult.ok { lg with attached := lg.attached ++ out } ∧
    (∀ lg2, Logger.With maskFunc (some lg) keyValuePairs = WithResult.ok lg2 →
      lg2.piiMode = lg.piiMode) ∧
    (∀ (lvl : Level) (msg : String) (kvps2 out2 : List LogArg),
      resolvePIIFunctions maskFunc lg.piiMode kvps2 = some out2 →
      emitw maskFunc lvl (some { lg with attached := lg.attached ++ out }) msg kvps2 =
        EmitResult.record lvl msg lg.initialFields (lg.attached ++ out) out2 ∧
      emitw maskFunc lvl (some lg) msg kvps2 =
        EmitResult.record lvl msg lg.initialFields lg.attached out2) := by
  refine ⟨by simp [Logger.With, h], ?_, ?_⟩
  · intro lg2 hw
    simp only [Logger.With, h] at hw
    cases hw
    rfl
  · intro lvl msg kvps2 out2 h2
    exact ⟨by simp [emitw, h2], by simp [emitw, h2]⟩

/-- C8 witness: deriving from a mode-none logger with one standard PII
field attaches the resolved field, keeps the mode, and a subsequent
emission on the derived logger carries the field pre-attached. -/
theorem C8_witness :
    Logger.With none (some { piiMode := PIIModeNone, initialFields := [], attached := [] })
        [LogArg.piiField (PII "k" "v")] =
      WithResult.ok { piiMode := PIIModeNone, initialFields := [],
                      attached := [LogArg.zapF (ZapField.string "k" "v")] } ∧
    emitw none InfoLevel
        (some { piiMode := PIIModeNone, initialFields := [],
                attached := [LogArg.zapF (ZapField.string "k" "v")] }) "m" [] =
      EmitResult.record InfoLevel "m" [] [LogArg.zapF (ZapField.string "k" "v")] [] := by
  have h := C8_With_derives_logger none
    { piiMode := PIIModeNone, initialFields := [], attached := [] }
    [LogArg.piiField (PII "k" "v")] [LogArg.zapF (ZapField.string "k" "v")] rfl
  have h2 := (h.2.2 InfoLevel "m" [] [] rfl).1
  exact ⟨h.1, by simpa using h2⟩

/-- C9: every structured emission method, and Sync and With, called on a
nil logger reference takes the handleUninitialized path: an emergency
fallback logger is constructed and the call panics with the diagnostic
message, rather than silently doing nothing, emitting a record, or
failing with a low-level nil dereference. -/
theorem C9_nil_logger_loud_failure :
    handleUninitialized none = some "logger has not been initialized - panicking" ∧
    (∀ lg : Logger, handleUninitialized (some lg) = none) ∧
    (∀ (maskFunc : Option MaskFuncType) (lvl : Level) (msg : String) (kvps : List LogArg),
      emitw maskFunc lvl none msg kvps =
        EmitResult.emergencyAbort "logger has not been initialized - panicking") ∧
    (∀ (maskFunc : Option MaskFuncType) (msg : String) (kvps : List LogArg),
      Logger.Debugw maskFunc none msg kvps =
        EmitResult.emergencyAbort "logger has not been initialized - panicking" ∧
      Logger.Infow maskFunc none msg kvps =
        EmitResult.emergencyAbort "logger has not been initialized - panicking" ∧
      Logger.Warnw maskFunc none msg kvps =
        EmitResult.emergencyAbort "logger has not been initialized - panicking" ∧
      Logger.Errorw maskFunc none msg kvps =
        EmitResult.emergencyAbort "logger has not been initialized - panicking" ∧
      Logger.Fatalw maskFunc none msg kvps =
        EmitResult.emergencyAbort "logger has not been initialized - panicking") ∧
    Logger.Sync none = SyncResult.emergencyAbort "logger has not been initialized - panicking" ∧
    (∀ (maskFunc : Option MaskFuncType) (kvps : List LogArg),
      Logger.With maskFunc none kvps =
        WithResult.emergencyAbort "logger has not been initialized - panicking") ∧
    (∀ (maskFunc : Option MaskFuncType) (lvl : Level) (msg : String) (kvps : List LogArg),
      emitw maskFunc lvl none msg kvps ≠ EmitResult.nilDereferenceFault ∧
      ∀ (initialFields : List (String × String)) (preAttached fields : List LogArg),
        emitw maskFunc lvl none msg kvps ≠
          EmitResult.record lvl msg initialFields preAttached fields) := by
  refine ⟨rfl, fun lg => rfl, fun _ _ _ _ => rfl,
    fun _ _ _ => ⟨rfl, rfl, rfl, rfl, rfl⟩, rfl, fun _ _ => rfl, ?_⟩
  intro maskFunc lvl msg kvps
  exact ⟨by simp [emitw], fun _ _ _ => by simp [emitw]⟩

/-- C9 witness: a structured emission and Sync on the nil logger both
evaluate to the emergency panic outcome. -/
theorem C9_witness :
    emitw none InfoLevel none "m" [] =
      EmitResult.emergencyAbort "logger has not been initialized - panicking" ∧
    Logger.Sync none =
      SyncResult.emergencyAbort "logger has not been initialized - panicking" :=
  ⟨C9_nil_logger_loud_failure.2.2.1 none InfoLevel "m" [],
   C9_nil_logger_loud_failure.2.2.2.2.1⟩

/-- C10 counterexample: the package default logger runs in mode none, but
a custom PII field passed to a package-level structured call is not
emitted with its raw value: the field's stored resolver is invoked (with
mode none) and here replaces the value, so PII handling is not inert for
every PII field at the package-level interface. -/
theorem C10_cex_custom_field_transformed :
    Infow none "m"
        [LogArg.customField (some
          { key := "email", value := "a@b.com",
            customResolveFunc := fun _ k _ => { Key := k, Value := "MASKED" } })] =
      EmitResult.record InfoLevel "m" [] []
        [LogArg.zapF (ZapField.string "email" "MASKED")] ∧
    "MASKED" ≠ "a@b.com" := by
  exact ⟨rfl, by decide⟩

/-- C10 amended: the package-level logging functions operate on a package
default logger constructed with minimum level debug and the zero PII
mode, which is none; every standard PII field passed to a package-level
structured call is therefore resolved under mode none and forwarded with
its raw key and value unchanged, while a custom PII field still has its
own resolver invoked (with mode none), which may transform the pair; the
built-in hash, mask and remove protections are never applied at the
package-level interface. -/
theorem C10_package_logger_mode_none :
    NewLogger { MinimumLogLevel := DebugLevel } = Except.ok logger ∧
    logger.piiMode = PIIModeNone ∧
    (∀ (maskFunc : Option MaskFuncType) (msg : String) (kvps : List LogArg),
      Debugw maskFunc msg kvps = emitw maskFunc DebugLevel (some logger) msg kvps ∧
      Infow maskFunc msg kvps = emitw maskFunc InfoLevel (some logger) msg kvps ∧
      Warnw maskFunc msg kvps = emitw maskFunc WarnLevel (some logger) msg kvps ∧
      Errorw maskFunc msg kvps = emitw maskFunc ErrorLevel (some logger) msg kvps ∧
      Fatalw maskFunc msg kvps = emitw maskFunc FatalLevel (some logger) msg kvps) ∧
    (∀ (maskFunc : Option MaskFuncType) (k v : String),
      (PII k v).resolve maskFunc logger.piiMode = ZapField.string k v) ∧
    (∀ (maskFunc : Option MaskFuncType) (msg k v : String),
      Infow maskFunc msg [LogArg.piiField (PII k v)] =
        EmitResult.record InfoLevel msg [] [] [LogArg.zapF (ZapField.string k v)]) ∧
    (∀ f : customPIIField,
      f.resolve logger.piiMode = (f.customResolveFunc PIIModeNone f.key f.value).zapField) := by
  exact ⟨rfl, rfl, fun _ _ _ => ⟨rfl, rfl, rfl, rfl, rfl⟩,
         fun _ _ _ => rfl, fun _ _ _ _ => rfl, fun _ => rfl⟩

/-- C10 witness: a standard PII field passed to the package-level Infow
is emitted with its raw key and value. -/
theorem C10_witness :
    Infow none "m" [LogArg.piiField (PII "email" "a@b.com")] =
      EmitResult.record InfoLevel "m" [] []
        [LogArg.zapF (ZapField.string "email" "a@b.com")] :=
  C10_package_logger_mode_none.2.2.2.2.1 none "m" "email" "a@b.com"

end Log
